import Mathlib

/-
Verification development for the heart-health-assessment repository.

The frontend sources (frontend/src/lib/api.ts, frontend/src/lib/utils.ts,
frontend/src/components/ManualForm.tsx, frontend/src/components/UploadCard.tsx,
frontend/src/components/ResultCard.tsx, frontend/src/App.tsx) are shallowly
embedded below: TypeScript numbers become ℚ, runtime string values become
String, booleans become Bool, `undefined | T` becomes Option T, and a handler
that either throws or calls a continuation becomes an Except value.  The
backend risk-inference pipeline is not part of the available sources; where a
claim depends on it the definitions are modelled from the specification and
are marked as such in their doc comments.
-/

namespace HeartHealth

/-- Embedding of the TypeScript union `number | string | boolean` used for the
`value` field of `FeatureContribution` in lib/api.ts. -/
inductive FieldValue
  | num (q : ℚ)
  | str (s : String)
  | bool (b : Bool)
deriving DecidableEq

/-- Embedding of the `HeartDiseaseInput` interface of lib/api.ts.  The four
categorical fields are typed as `String` because the TypeScript literal-union
annotations are erased at runtime: the functions under verification receive
plain strings. -/
structure HeartDiseaseInput where
  age : ℚ
  gender : String
  cholesterol : ℚ
  blood_pressure : ℚ
  heart_rate : ℚ
  smoking : String
  alcohol_intake : String
  exercise_hours : ℚ
  family_history : Bool
  diabetes : Bool
  obesity : Bool
  stress_level : ℚ
  blood_sugar : ℚ
  exercise_induced_angina : Bool
  chest_pain_type : String
deriving DecidableEq

/-- Embedding of the `FeatureContribution` interface of lib/api.ts. -/
structure FeatureContribution where
  feature : String
  value : FieldValue
  importance : ℚ
deriving DecidableEq

/-- Embedding of the `HeartDiseasePrediction` interface of lib/api.ts.
`risk_level` is a `String` at runtime. -/
structure HeartDiseasePrediction where
  risk_score : ℚ
  risk_level : String
  top_contributors : List FeatureContribution
  model_version : String
  notes : List String
deriving DecidableEq

/-- Embedding of the `UploadResponse` interface of lib/api.ts; the optional
fields become `Option`. -/
structure UploadResponse where
  success : Bool
  message : String
  extracted_data : Option HeartDiseaseInput
  confidence : Option ℚ
deriving DecidableEq

/-! ## ManualForm (components/ManualForm.tsx)

`handleSubmit` runs the seven range checks in source order; the first failing
check throws, the thrown message is routed to `onError`, and only when all
checks pass is `onSubmit formData` invoked with the data unchanged.  We embed
it as an `Except`: `.error msg` means the handler threw (so `onError msg` ran
and `onSubmit` was never invoked) and `.ok d` means `onSubmit d` ran. -/

def handleSubmit (formData : HeartDiseaseInput) : Except String HeartDiseaseInput :=
  if formData.age < 18 ∨ formData.age > 120 then
    .error "Age must be between 18 and 120"
  else if formData.cholesterol < 100 ∨ formData.cholesterol > 600 then
    .error "Cholesterol must be between 100 and 600 mg/dL"
  else if formData.blood_pressure < 60 ∨ formData.blood_pressure > 250 then
    .error "Blood pressure must be between 60 and 250 mmHg"
  else if formData.heart_rate < 40 ∨ formData.heart_rate > 200 then
    .error "Heart rate must be between 40 and 200 bpm"
  else if formData.stress_level < 1 ∨ formData.stress_level > 10 then
    .error "Stress level must be between 1 and 10"
  else if formData.blood_sugar < 70 ∨ formData.blood_sugar > 300 then
    .error "Blood sugar must be between 70 and 300 mg/dL"
  else if formData.exercise_hours < 0 ∨ formData.exercise_hours > 24 then
    .error "Exercise hours must be between 0 and 24 per week"
  else
    .ok formData

/-- The age domain of §3 of the specification, `[18,120]`. -/
def ageInRange (d : HeartDiseaseInput) : Prop := 18 ≤ d.age ∧ d.age ≤ 120

/-- The cholesterol domain `[100,600]`. -/
def cholesterolInRange (d : HeartDiseaseInput) : Prop :=
  100 ≤ d.cholesterol ∧ d.cholesterol ≤ 600

/-- The blood-pressure domain `[60,250]`. -/
def bloodPressureInRange (d : HeartDiseaseInput) : Prop :=
  60 ≤ d.blood_pressure ∧ d.blood_pressure ≤ 250

/-- The heart-rate domain `[40,200]`. -/
def heartRateInRange (d : HeartDiseaseInput) : Prop :=
  40 ≤ d.heart_rate ∧ d.heart_rate ≤ 200

/-- The stress-level domain `[1,10]`. -/
def stressLevelInRange (d : HeartDiseaseInput) : Prop :=
  1 ≤ d.stress_level ∧ d.stress_level ≤ 10

/-- The blood-sugar domain `[70,300]`. -/
def bloodSugarInRange (d : HeartDiseaseInput) : Prop :=
  70 ≤ d.blood_sugar ∧ d.blood_sugar ≤ 300

/-- The exercise-hours domain `[0,24]`. -/
def exerciseHoursInRange (d : HeartDiseaseInput) : Prop :=
  0 ≤ d.exercise_hours ∧ d.exercise_hours ≤ 24

/-- All seven continuous fields are within their domains. -/
def continuousInRange (d : HeartDiseaseInput) : Prop :=
  ageInRange d ∧ cholesterolInRange d ∧ bloodPressureInRange d ∧
    heartRateInRange d ∧ stressLevelInRange d ∧ bloodSugarInRange d ∧
    exerciseHoursInRange d

instance (d : HeartDiseaseInput) : Decidable (ageInRange d) := by
  unfold ageInRange
  infer_instance

instance (d : HeartDiseaseInput) : Decidable (cholesterolInRange d) := by
  unfold cholesterolInRange
  infer_instance

instance (d : HeartDiseaseInput) : Decidable (bloodPressureInRange d) := by
  unfold bloodPressureInRange
  infer_instance

instance (d : HeartDiseaseInput) : Decidable (heartRateInRange d) := by
  unfold heartRateInRange
  infer_instance

instance (d : HeartDiseaseInput) : Decidable (stressLevelInRange d) := by
  unfold stressLevelInRange
  infer_instance

instance (d : HeartDiseaseInput) : Decidable (bloodSugarInRange d) := by
  unfold bloodSugarInRange
  infer_instance

instance (d : HeartDiseaseInput) : Decidable (exerciseHoursInRange d) := by
  unfold exerciseHoursInRange
  infer_instance

instance (d : HeartDiseaseInput) : Decidable (continuousInRange d) := by
  unfold continuousInRange
  infer_instance

/-! ## ManualForm initial state (components/ManualForm.tsx, lines 18-34)

The `useState` initializer fills each field with
`initialData?.field || default`.  JavaScript `||` tests truthiness, so for a
number the fallback fires when the extracted value is `0` (or the field is
missing), for a string when it is `""`, and for a boolean when it is
`false`. -/

/-- Embedding of a `Partial<HeartDiseaseInput>`: every field optional. -/
structure PartialHeartDiseaseInput where
  age : Option ℚ := none
  gender : Option String := none
  cholesterol : Option ℚ := none
  blood_pressure : Option ℚ := none
  heart_rate : Option ℚ := none
  smoking : Option String := none
  alcohol_intake : Option String := none
  exercise_hours : Option ℚ := none
  family_history : Option Bool := none
  diabetes : Option Bool := none
  obesity : Option Bool := none
  stress_level : Option ℚ := none
  blood_sugar : Option ℚ := none
  exercise_induced_angina : Option Bool := none
  chest_pain_type : Option String := none
deriving DecidableEq

/-- JavaScript `v || d` on a possibly-missing number: `0` is falsy. -/
def jsOrNum (v : Option ℚ) (d : ℚ) : ℚ :=
  match v with
  | some x => if x = 0 then d else x
  | none => d

/-- JavaScript `v || d` on a possibly-missing string: `""` is falsy. -/
def jsOrStr (v : Option String) (d : String) : String :=
  match v with
  | some x => if x = "" then d else x
  | none => d

/-- JavaScript `v || d` on a possibly-missing boolean: `false` is falsy. -/
def jsOrBool (v : Option Bool) (d : Bool) : Bool :=
  match v with
  | some b => if b then b else d
  | none => d

/-- Embedding of the `useState<HeartDiseaseInput>({...})` initializer of
`ManualForm`, with the hardcoded defaults of the source. -/
def initFormData (initialData : Option PartialHeartDiseaseInput) : HeartDiseaseInput where
  age := jsOrNum (initialData.bind (·.age)) 50
  gender := jsOrStr (initialData.bind (·.gender)) "Male"
  cholesterol := jsOrNum (initialData.bind (·.cholesterol)) 200
  blood_pressure := jsOrNum (initialData.bind (·.blood_pressure)) 120
  heart_rate := jsOrNum (initialData.bind (·.heart_rate)) 72
  smoking := jsOrStr (initialData.bind (·.smoking)) "Never"
  alcohol_intake := jsOrStr (initialData.bind (·.alcohol_intake)) "None"
  exercise_hours := jsOrNum (initialData.bind (·.exercise_hours)) 3
  family_history := jsOrBool (initialData.bind (·.family_history)) false
  diabetes := jsOrBool (initialData.bind (·.diabetes)) false
  obesity := jsOrBool (initialData.bind (·.obesity)) false
  stress_level := jsOrNum (initialData.bind (·.stress_level)) 5
  blood_sugar := jsOrNum (initialData.bind (·.blood_sugar)) 100
  exercise_induced_angina := jsOrBool (initialData.bind (·.exercise_induced_angina)) false
  chest_pain_type := jsOrStr (initialData.bind (·.chest_pain_type)) "Asymptomatic"

/-! ## Case helpers (lib/utils.ts, components/ResultCard.tsx)

The display helpers dispatch on `riskLevel.toLowerCase()`.  We embed
JavaScript `toLowerCase()` as a character-wise map with `Char.toLower` (the
same function core Lean uses for `String.toLower`, see
`jsToLowerCase_eq_toLower`). -/

/-- Embedding of JavaScript `s.toLowerCase()` as a character-wise map. -/
def jsToLowerCase (s : String) : String := ⟨s.data.map Char.toLower⟩

/-- Embedding of `getRiskColor` from lib/utils.ts. -/
def getRiskColor (riskLevel : String) : String :=
  if jsToLowerCase riskLevel = "low" then "text-green-600 bg-green-50"
  else if jsToLowerCase riskLevel = "moderate" then "text-yellow-600 bg-yellow-50"
  else if jsToLowerCase riskLevel = "high" then "text-red-600 bg-red-50"
  else "text-gray-600 bg-gray-50"

/-- Embedding of `getRiskIcon` from lib/utils.ts. -/
def getRiskIcon (riskLevel : String) : String :=
  if jsToLowerCase riskLevel = "low" then "✅"
  else if jsToLowerCase riskLevel = "moderate" then "⚠️"
  else if jsToLowerCase riskLevel = "high" then "🚨"
  else "❓"

/-- Embedding of `getRiskDescription` from components/ResultCard.tsx. -/
def getRiskDescription (level : String) : String :=
  if jsToLowerCase level = "low" then
    "Your risk of heart disease is relatively low. Continue maintaining a healthy lifestyle."
  else if jsToLowerCase level = "moderate" then
    "Your risk of heart disease is moderate. Consider lifestyle changes and regular health checkups."
  else if jsToLowerCase level = "high" then
    "Your risk of heart disease is high. Please consult a healthcare professional immediately."
  else
    "Risk assessment completed."

/-- The four description strings `getRiskDescription` can produce. -/
def riskDescriptionCatalog : List String :=
  ["Your risk of heart disease is relatively low. Continue maintaining a healthy lifestyle.",
   "Your risk of heart disease is moderate. Consider lifestyle changes and regular health checkups.",
   "Your risk of heart disease is high. Please consult a healthcare professional immediately.",
   "Risk assessment completed."]

/-! ## App state machine (App.tsx)

The four `useState` cells of `App` are gathered into one record; each event
handler becomes a function on that record. -/

/-- Embedding of `type AppState = 'upload' | 'manual' | 'result' | 'loading'`. -/
inductive AppState
  | upload
  | manual
  | result
  | loading
deriving DecidableEq

/-- The four `useState` cells of `App`. -/
structure AppModel where
  currentState : AppState
  prediction : Option HeartDiseasePrediction
  error : Option String
  extractedData : Option HeartDiseaseInput
deriving DecidableEq

/-- Embedding of `handleDataExtracted` (App.tsx lines 19-23). -/
def handleDataExtracted (m : AppModel) (data : HeartDiseaseInput) : AppModel :=
  { m with extractedData := some data, currentState := .manual, error := none }

/-- Embedding of `handleError` (App.tsx lines 40-42): records the message
without touching any other cell. -/
def handleError (m : AppModel) (errorMessage : String) : AppModel :=
  { m with error := some errorMessage }

/-- Embedding of `handleFormSubmit` (App.tsx lines 25-38).  The single
`apiClient.predict` call is abstracted as its settled outcome: `.ok` for a
fulfilled promise, `.error` for a rejection.  The handler first enters the
loading state with the error cleared, then applies the outcome; no retry is
performed. -/
def handleFormSubmit (m : AppModel)
    (outcome : Except String HeartDiseasePrediction) : AppModel :=
  let m1 := { m with currentState := AppState.loading, error := none }
  match outcome with
  | .ok result => { m1 with prediction := some result, currentState := .result }
  | .error e => { m1 with error := some e, currentState := .manual }

/-- Embedding of the response branch of `onDrop` (UploadCard.tsx lines 26-33)
composed with the `App` callbacks: `result.success && result.extracted_data`
routes to `onDataExtracted` (= `handleDataExtracted`), anything else to
`onError` (= `handleError result.message`). -/
def onDropResponse (m : AppModel) (result : UploadResponse) : AppModel :=
  match result.success, result.extracted_data with
  | true, some data => handleDataExtracted m data
  | _, _ => handleError m result.message

/-! ## API client configuration (lib/api.ts)

`axios.create({ baseURL, timeout: 30000, headers })` builds the shared
instance; every method of `apiClient` issues its request through it.  The
two upload methods pass a per-request config overriding only the
`Content-Type` header, so the instance timeout applies to all six. -/

/-- The six methods of `apiClient` in lib/api.ts. -/
inductive ApiMethod
  | predict
  | uploadFile
  | uploadImage
  | getModelInfo
  | healthCheck
  | getSupportedFormats
deriving DecidableEq

/-- Embedding of the `axios.create` options of the shared `api` instance. -/
structure AxiosInstanceConfig where
  baseURL : String
  timeout : Nat
  headerContentType : String
deriving DecidableEq

/-- The shared `api` instance: `timeout: 30000`, JSON content type.  The
`baseURL` falls back to `/api` when `VITE_API_URL` is unset; the fallback
value is used here. -/
def api : AxiosInstanceConfig where
  baseURL := "/api"
  timeout := 30000
  headerContentType := "application/json"

/-- Per-request config overrides a method passes to `api.post`/`api.get`;
`none` means the instance setting applies. -/
structure RequestOverride where
  headerContentType : Option String
  timeout : Option Nat
deriving DecidableEq

/-- The per-request config each `apiClient` method supplies: the upload
methods override only the content-type header; no method overrides the
timeout. -/
def requestOverride : ApiMethod → RequestOverride
  | .uploadFile => ⟨some "multipart/form-data", none⟩
  | .uploadImage => ⟨some "multipart/form-data", none⟩
  | _ => ⟨none, none⟩

/-- The endpoint path each `apiClient` method requests. -/
def requestPath : ApiMethod → String
  | .predict => "/predict"
  | .uploadFile => "/upload"
  | .uploadImage => "/upload-image"
  | .getModelInfo => "/model-info"
  | .healthCheck => "/health"
  | .getSupportedFormats => "/supported-formats"

/-- The deadline a method's request carries: the per-request override when
present (axios config merge), otherwise the instance timeout. -/
def effectiveTimeout (m : ApiMethod) : Nat :=
  ((requestOverride m).timeout).getD api.timeout

/-! ## Spec-modelled backend pipeline

The repository's backend (`predict` endpoint: validation, Preprocessor §4.2,
Risk Model §4.3, Explainer §4.4, Risk Categorizer §4.5 of the specification)
is not among the available sources — only its TypeScript client-side
declarations are.  The definitions below are therefore modelled from the
specification's words, not translated from source code; each doc comment
says what it models. -/

/-- The `gender` enumeration of §3 (also the literal union in lib/api.ts). -/
def genderValues : List String := ["Male", "Female"]

/-- The `smoking` enumeration of §3. -/
def smokingValues : List String := ["Never", "Former", "Current"]

/-- The `alcohol_intake` enumeration of §3. -/
def alcoholIntakeValues : List String := ["None", "Moderate", "Heavy"]

/-- The `chest_pain_type` enumeration of §3. -/
def chestPainTypeValues : List String :=
  ["Typical Angina", "Atypical Angina", "Non-anginal Pain", "Asymptomatic"]

/-- Modelled from the spec: the §3 invariant checked by the missing backend —
every field present and within its domain before scoring (continuous ranges
plus the fixed categorical enumerations). -/
def validSchema (d : HeartDiseaseInput) : Prop :=
  continuousInRange d ∧ d.gender ∈ genderValues ∧ d.smoking ∈ smokingValues ∧
    d.alcohol_intake ∈ alcoholIntakeValues ∧ d.chest_pain_type ∈ chestPainTypeValues

instance (d : HeartDiseaseInput) : Decidable (validSchema d) := by
  unfold validSchema
  infer_instance

/-- Modelled from the spec (§4.2): a continuous field is standardized with a
fixed mean and scale that are part of the persisted model artifact. -/
def standardize (x mean scale : ℚ) : ℚ := (x - mean) / scale

/-- Modelled from the spec (§4.2): a categorical field goes through a fixed
label-to-index table baked in at training time. -/
def encodeCat (table : List String) (v : String) : ℚ := (table.indexOf v : ℕ)

/-- Modelled from the spec (§4.2): booleans map to `{0,1}`. -/
def boolToRat (b : Bool) : ℚ := if b then 1 else 0

/-- Modelled from the spec (§4.2 Preprocessor, missing from the sources):
deterministic, order-stable mapping of a complete Feature Schema to the
15-entry numeric vector, with fixed standardization constants standing in for
the training-time artifact. -/
def transform (d : HeartDiseaseInput) : List ℚ :=
  [standardize d.age 54 9,
   encodeCat genderValues d.gender,
   standardize d.cholesterol 250 50,
   standardize d.blood_pressure 130 20,
   standardize d.heart_rate 75 15,
   encodeCat smokingValues d.smoking,
   encodeCat alcoholIntakeValues d.alcohol_intake,
   standardize d.exercise_hours 4 3,
   boolToRat d.family_history,
   boolToRat d.diabetes,
   boolToRat d.obesity,
   standardize d.stress_level 5 2,
   standardize d.blood_sugar 120 30,
   boolToRat d.exercise_induced_angina,
   encodeCat chestPainTypeValues d.chest_pain_type]

/-- Modelled from the spec (§4.3 Risk Model, missing from the sources): the
fallback linear model — a unit-weight score squashed into `[0,1]` as the
calibrated probability the contract promises. -/
def riskModel (v : List ℚ) : ℚ := |v.sum| / (1 + |v.sum|)

/-- Modelled from the spec (§4.4 Explainer, missing from the sources): the
per-feature signed attribution of the linear model, i.e. weight times
transformed value — with unit weights, the vector entries themselves. -/
def explain (v : List ℚ) : List ℚ := v

/-- The 15 feature names in the vector order of `transform`. -/
def featureNames : List String :=
  ["age", "gender", "cholesterol", "blood_pressure", "heart_rate", "smoking",
   "alcohol_intake", "exercise_hours", "family_history", "diabetes", "obesity",
   "stress_level", "blood_sugar", "exercise_induced_angina", "chest_pain_type"]

/-- The original human-readable input values in the vector order of
`transform` (§4.4: each contributor carries the original input value, not the
transformed numeric one). -/
def displayValues (d : HeartDiseaseInput) : List FieldValue :=
  [.num d.age, .str d.gender, .num d.cholesterol, .num d.blood_pressure,
   .num d.heart_rate, .str d.smoking, .str d.alcohol_intake,
   .num d.exercise_hours, .bool d.family_history, .bool d.diabetes,
   .bool d.obesity, .num d.stress_level, .num d.blood_sugar,
   .bool d.exercise_induced_angina, .str d.chest_pain_type]

/-- The per-feature triples (name, original value, raw attribution) the
Explainer normalizes. -/
def featureContribs (d : HeartDiseaseInput) : List (String × FieldValue × ℚ) :=
  featureNames.zip ((displayValues d).zip (explain (transform d)))

/-- Modelled from the spec (§4.4 normalization algorithm, missing from the
sources): take absolute values of the raw attributions, discard exactly-zero
contributions, scale the surviving set to sum to 100; if all attributions are
zero, distribute equally across all features. -/
def normalizeContribs (cs : List (String × FieldValue × ℚ)) : List FeatureContribution :=
  let surv := cs.filter (fun c => decide (|c.2.2| ≠ 0))
  if surv.isEmpty then
    cs.map (fun c => ⟨c.1, c.2.1, 100 / (cs.length : ℚ)⟩)
  else
    surv.map (fun c => ⟨c.1, c.2.1, |c.2.2| * 100 / ((surv.map (fun x => |x.2.2|)).sum)⟩)

/-- Modelled from the spec (§4.5 Risk Categorizer, missing from the sources):
Low = [0, 0.33), Moderate = [0.33, 0.67), High = [0.67, 1]. -/
def categorize (p : ℚ) : String :=
  if p < 33 / 100 then "Low" else if p < 67 / 100 then "Moderate" else "High"

/-- Modelled from the spec (§4.5): the fixed per-tier guidance catalog. -/
def guidanceNotes (tier : String) : List String :=
  if tier = "Low" then ["Maintain your healthy lifestyle and routine checkups."]
  else if tier = "Moderate" then ["Consider lifestyle changes and regular health checkups."]
  else ["Consult a healthcare professional about your cardiovascular risk."]

/-- Modelled from the spec (§4.3): the served model variant is recorded in the
response's `model_version`. -/
def modelVersion : String := "fallback-linear-1.0"

/-- Modelled from the spec (§6 `predict` entry point, missing from the
sources): validate the schema (rejecting, never clamping), transform, score,
explain, normalize over the full feature set, truncate to the top `k` only
after normalization, and categorize. -/
def predict (k : ℕ) (d : HeartDiseaseInput) : Except String HeartDiseasePrediction :=
  if validSchema d then
    .ok ⟨riskModel (transform d), categorize (riskModel (transform d)),
         (normalizeContribs (featureContribs d)).take k, modelVersion,
         guidanceNotes (categorize (riskModel (transform d)))⟩
  else
    .error "ValidationError"

/-- The §8 scenario input: a complete, in-domain Feature Schema. -/
def sampleInput : HeartDiseaseInput where
  age := 50
  gender := "Male"
  cholesterol := 200
  blood_pressure := 120
  heart_rate := 72
  smoking := "Never"
  alcohol_intake := "None"
  exercise_hours := 3
  family_history := false
  diabetes := false
  obesity := false
  stress_level := 5
  blood_sugar := 100
  exercise_induced_angina := false
  chest_pain_type := "Asymptomatic"

/-! ## Helper lemmas -/

theorem jsToLowerCase_eq_toLower (s : String) : jsToLowerCase s = s.toLower :=
  (String.map_eq Char.toLower s).symm

theorem char_toNat_ofNat_valid (n : Nat) (hv : n.isValidChar) :
    (Char.ofNat n).toNat = n := by
  simp only [Char.ofNat, hv, dif_pos, Char.ofNatAux, Char.toNat]
  simp [UInt32.toNat]

theorem charToLower_idem (c : Char) : c.toLower.toLower = c.toLower := by
  simp only [Char.toLower]
  split
  · rename_i h
    have hv : (c.toNat + 32).isValidChar := by
      unfold Nat.isValidChar
      left
      omega
    rw [if_neg]
    rw [char_toNat_ofNat_valid _ hv]
    omega
  · rfl

theorem jsToLowerCase_idem (s : String) :
    jsToLowerCase (jsToLowerCase s) = jsToLowerCase s := by
  unfold jsToLowerCase
  apply congrArg String.mk
  rw [List.map_map]
  apply List.map_congr_left
  intro c _
  exact charToLower_idem c

theorem sum_map_mul_div (l : List ℚ) (t : ℚ) :
    (l.map (fun x => x * 100 / t)).sum = l.sum * 100 / t := by
  induction l with
  | nil => simp
  | cons a l ih =>
    simp only [List.map_cons, List.sum_cons, ih]
    ring

theorem sum_map_const_rat {α : Type} (l : List α) (c : ℚ) :
    (l.map (fun _ => c)).sum = (l.length : ℚ) * c := by
  induction l with
  | nil => simp
  | cons a l ih =>
    simp only [List.map_cons, List.sum_cons, ih, List.length_cons]
    push_cast
    ring

theorem surv_abs_pos (cs : List (String × FieldValue × ℚ))
    (x : String × FieldValue × ℚ)
    (hx : x ∈ cs.filter (fun c => decide (|c.2.2| ≠ 0))) : 0 < |x.2.2| := by
  rw [List.mem_filter] at hx
  have : |x.2.2| ≠ 0 := by simpa using hx.2
  exact lt_of_le_of_ne (abs_nonneg _) (Ne.symm this)

theorem surv_total_pos (cs : List (String × FieldValue × ℚ))
    (h : ¬(cs.filter (fun c => decide (|c.2.2| ≠ 0))).isEmpty) :
    0 < ((cs.filter (fun c => decide (|c.2.2| ≠ 0))).map (fun x => |x.2.2|)).sum := by
  apply List.sum_pos
  · intro q hq
    rw [List.mem_map] at hq
    obtain ⟨x, hx, rfl⟩ := hq
    exact surv_abs_pos cs x hx
  · have hsne : cs.filter (fun c => decide (|c.2.2| ≠ 0)) ≠ [] := by
      simpa [List.isEmpty_iff] using h
    intro hnil
    exact hsne (List.map_eq_nil_iff.mp hnil)

theorem normalizeContribs_importance_nonneg (cs : List (String × FieldValue × ℚ))
    (c : FeatureContribution) (hc : c ∈ normalizeContribs cs) : 0 ≤ c.importance := by
  unfold normalizeContribs at hc
  by_cases h : (cs.filter (fun c => decide (|c.2.2| ≠ 0))).isEmpty
  · rw [if_pos h, List.mem_map] at hc
    obtain ⟨x, _, rfl⟩ := hc
    positivity
  · rw [if_neg h, List.mem_map] at hc
    obtain ⟨x, hx, rfl⟩ := hc
    have htot := surv_total_pos cs h
    have hxpos := surv_abs_pos cs x hx
    positivity

theorem normalizeContribs_sum (cs : List (String × FieldValue × ℚ)) (h : cs ≠ []) :
    ((normalizeContribs cs).map FeatureContribution.importance).sum = 100 := by
  unfold normalizeContribs
  by_cases he : (cs.filter (fun c => decide (|c.2.2| ≠ 0))).isEmpty
  · rw [if_pos he, List.map_map]
    have : (FeatureContribution.importance ∘
        fun c : String × FieldValue × ℚ =>
          FeatureContribution.mk c.1 c.2.1 (100 / (cs.length : ℚ))) =
        fun _ => 100 / (cs.length : ℚ) := rfl
    rw [this, sum_map_const_rat]
    have hlen : (cs.length : ℚ) ≠ 0 := by
      have : cs.length ≠ 0 := by
        simpa using List.length_pos.mpr h |>.ne'
      exact_mod_cast this
    field_simp
  · rw [if_neg he, List.map_map]
    set surv := cs.filter (fun c => decide (|c.2.2| ≠ 0)) with hs
    set t := (surv.map (fun x => |x.2.2|)).sum with ht
    have htpos : 0 < t := surv_total_pos cs he
    have : (FeatureContribution.importance ∘
        fun c : String × FieldValue × ℚ =>
          FeatureContribution.mk c.1 c.2.1 (|c.2.2| * 100 / t)) =
        (fun x => x * 100 / t) ∘ (fun c : String × FieldValue × ℚ => |c.2.2|) := rfl
    rw [this, ← List.map_map, sum_map_mul_div, ← ht]
    field_simp

theorem normalizeContribs_length_le (cs : List (String × FieldValue × ℚ)) :
    (normalizeContribs cs).length ≤ cs.length := by
  unfold normalizeContribs
  by_cases he : (cs.filter (fun c => decide (|c.2.2| ≠ 0))).isEmpty
  · rw [if_pos he, List.length_map]
  · rw [if_neg he, List.length_map]
    exact List.length_filter_le _ _

theorem riskModel_mem_unitInterval (v : List ℚ) :
    0 ≤ riskModel v ∧ riskModel v ≤ 1 := by
  unfold riskModel
  have h1 : (0 : ℚ) < 1 + |v.sum| := by positivity
  constructor
  · exact div_nonneg (abs_nonneg _) h1.le
  · rw [div_le_one h1]
    linarith [abs_nonneg v.sum]

theorem handleSubmit_ok_of_inRange (d : HeartDiseaseInput)
    (h : continuousInRange d) : handleSubmit d = .ok d := by
  obtain ⟨⟨a1, a2⟩, ⟨c1, c2⟩, ⟨b1, b2⟩, ⟨r1, r2⟩, ⟨s1, s2⟩, ⟨g1, g2⟩, ⟨e1, e2⟩⟩ := h
  unfold handleSubmit
  rw [if_neg (by push_neg; exact ⟨a1, a2⟩), if_neg (by push_neg; exact ⟨c1, c2⟩),
    if_neg (by push_neg; exact ⟨b1, b2⟩), if_neg (by push_neg; exact ⟨r1, r2⟩),
    if_neg (by push_neg; exact ⟨s1, s2⟩), if_neg (by push_neg; exact ⟨g1, g2⟩),
    if_neg (by push_neg; exact ⟨e1, e2⟩)]

theorem rat_boundary {x lo hi : ℚ} (hlh : lo ≤ hi) (h : x = lo ∨ x = hi) :
    lo ≤ x ∧ x ≤ hi := by
  rcases h with rfl | rfl
  exacts [⟨le_refl _, hlh⟩, ⟨hlh, le_refl _⟩]

/-! ## Claim theorems -/

/-- C2: for every Feature Schema submitted through the form in which exactly
one continuous field lies one unit outside its domain (the other six within
theirs), `handleSubmit` throws the validation error message of that field —
so `onError` receives a message referencing the field, the value is rejected
rather than clamped, and `onSubmit` is never invoked (the result is `.error`,
not `.ok`). -/
theorem form_rejects_one_unit_outside (d : HeartDiseaseInput) :
    (((d.age = 17 ∨ d.age = 121) ∧ cholesterolInRange d ∧ bloodPressureInRange d ∧
        heartRateInRange d ∧ stressLevelInRange d ∧ bloodSugarInRange d ∧
        exerciseHoursInRange d) →
      handleSubmit d = .error "Age must be between 18 and 120") ∧
    ((ageInRange d ∧ (d.cholesterol = 99 ∨ d.cholesterol = 601) ∧ bloodPressureInRange d ∧
        heartRateInRange d ∧ stressLevelInRange d ∧ bloodSugarInRange d ∧
        exerciseHoursInRange d) →
      handleSubmit d = .error "Cholesterol must be between 100 and 600 mg/dL") ∧
    ((ageInRange d ∧ cholesterolInRange d ∧ (d.blood_pressure = 59 ∨ d.blood_pressure = 251) ∧
        heartRateInRange d ∧ stressLevelInRange d ∧ bloodSugarInRange d ∧
        exerciseHoursInRange d) →
      handleSubmit d = .error "Blood pressure must be between 60 and 250 mmHg") ∧
    ((ageInRange d ∧ cholesterolInRange d ∧ bloodPressureInRange d ∧
        (d.heart_rate = 39 ∨ d.heart_rate = 201) ∧ stressLevelInRange d ∧
        bloodSugarInRange d ∧ exerciseHoursInRange d) →
      handleSubmit d = .error "Heart rate must be between 40 and 200 bpm") ∧
    ((ageInRange d ∧ cholesterolInRange d ∧ bloodPressureInRange d ∧ heartRateInRange d ∧
        (d.stress_level = 0 ∨ d.stress_level = 11) ∧ bloodSugarInRange d ∧
        exerciseHoursInRange d) →
      handleSubmit d = .error "Stress level must be between 1 and 10") ∧
    ((ageInRange d ∧ cholesterolInRange d ∧ bloodPressureInRange d ∧ heartRateInRange d ∧
        stressLevelInRange d ∧ (d.blood_sugar = 69 ∨ d.blood_sugar = 301) ∧
        exerciseHoursInRange d) →
      handleSubmit d = .error "Blood sugar must be between 70 and 300 mg/dL") ∧
    ((ageInRange d ∧ cholesterolInRange d ∧ bloodPressureInRange d ∧ heartRateInRange d ∧
        stressLevelInRange d ∧ bloodSugarInRange d ∧
        (d.exercise_hours = -1 ∨ d.exercise_hours = 25)) →
      handleSubmit d = .error "Exercise hours must be between 0 and 24 per week") := by
  refine ⟨?_, ?_, ?_, ?_, ?_, ?_, ?_⟩
  · rintro ⟨hf, -⟩
    unfold handleSubmit
    rw [if_pos (by rcases hf with h | h <;> rw [h] <;> norm_num)]
  · rintro ⟨⟨a1, a2⟩, hf, -⟩
    unfold handleSubmit
    rw [if_neg (by push_neg; exact ⟨a1, a2⟩),
      if_pos (by rcases hf with h | h <;> rw [h] <;> norm_num)]
  · rintro ⟨⟨a1, a2⟩, ⟨c1, c2⟩, hf, -⟩
    unfold handleSubmit
    rw [if_neg (by push_neg; exact ⟨a1, a2⟩), if_neg (by push_neg; exact ⟨c1, c2⟩),
      if_pos (by rcases hf with h | h <;> rw [h] <;> norm_num)]
  · rintro ⟨⟨a1, a2⟩, ⟨c1, c2⟩, ⟨b1, b2⟩, hf, -⟩
    unfold handleSubmit
    rw [if_neg (by push_neg; exact ⟨a1, a2⟩), if_neg (by push_neg; exact ⟨c1, c2⟩),
      if_neg (by push_neg; exact ⟨b1, b2⟩),
      if_pos (by rcases hf with h | h <;> rw [h] <;> norm_num)]
  · rintro ⟨⟨a1, a2⟩, ⟨c1, c2⟩, ⟨b1, b2⟩, ⟨r1, r2⟩, hf, -⟩
    unfold handleSubmit
    rw [if_neg (by push_neg; exact ⟨a1, a2⟩), if_neg (by push_neg; exact ⟨c1, c2⟩),
      if_neg (by push_neg; exact ⟨b1, b2⟩), if_neg (by push_neg; exact ⟨r1, r2⟩),
      if_pos (by rcases hf with h | h <;> rw [h] <;> norm_num)]
  · rintro ⟨⟨a1, a2⟩, ⟨c1, c2⟩, ⟨b1, b2⟩, ⟨r1, r2⟩, ⟨s1, s2⟩, hf, -⟩
    unfold handleSubmit
    rw [if_neg (by push_neg; exact ⟨a1, a2⟩), if_neg (by push_neg; exact ⟨c1, c2⟩),
      if_neg (by push_neg; exact ⟨b1, b2⟩), if_neg (by push_neg; exact ⟨r1, r2⟩),
      if_neg (by push_neg; exact ⟨s1, s2⟩),
      if_pos (by rcases hf with h | h <;> rw [h] <;> norm_num)]
  · rintro ⟨⟨a1, a2⟩, ⟨c1, c2⟩, ⟨b1, b2⟩, ⟨r1, r2⟩, ⟨s1, s2⟩, ⟨g1, g2⟩, hf⟩
    unfold handleSubmit
    rw [if_neg (by push_neg; exact ⟨a1, a2⟩), if_neg (by push_neg; exact ⟨c1, c2⟩),
      if_neg (by push_neg; exact ⟨b1, b2⟩), if_neg (by push_neg; exact ⟨r1, r2⟩),
      if_neg (by push_neg; exact ⟨s1, s2⟩), if_neg (by push_neg; exact ⟨g1, g2⟩),
      if_pos (by rcases hf with h | h <;> rw [h] <;> norm_num)]

/-- C2 witness: age 17 (one unit below the domain) with all other fields in
range is rejected with the age message. -/
theorem form_rejects_one_unit_outside_witness :
    handleSubmit { sampleInput with age := 17 } = .error "Age must be between 18 and 120" :=
  (form_rejects_one_unit_outside { sampleInput with age := 17 }).1
    ⟨Or.inl rfl, by decide, by decide, by decide, by decide, by decide, by decide⟩

/-- C3: for every Feature Schema with every continuous field exactly at a
domain boundary, form validation succeeds and `onSubmit` is called with the
data unchanged (`.ok d` for the submitted `d` itself — no clamping, no
rejection). -/
theorem form_accepts_boundary_values (d : HeartDiseaseInput)
    (h : (d.age = 18 ∨ d.age = 120) ∧ (d.cholesterol = 100 ∨ d.cholesterol = 600) ∧
      (d.blood_pressure = 60 ∨ d.blood_pressure = 250) ∧
      (d.heart_rate = 40 ∨ d.heart_rate = 200) ∧
      (d.stress_level = 1 ∨ d.stress_level = 10) ∧
      (d.blood_sugar = 70 ∨ d.blood_sugar = 300) ∧
      (d.exercise_hours = 0 ∨ d.exercise_hours = 24)) :
    handleSubmit d = .ok d := by
  obtain ⟨h1, h2, h3, h4, h5, h6, h7⟩ := h
  exact handleSubmit_ok_of_inRange d
    ⟨rat_boundary (by norm_num) h1, rat_boundary (by norm_num) h2,
     rat_boundary (by norm_num) h3, rat_boundary (by norm_num) h4,
     rat_boundary (by norm_num) h5, rat_boundary (by norm_num) h6,
     rat_boundary (by norm_num) h7⟩

/-- The all-lower-boundary input used as the C3 witness. -/
def boundaryLowInput : HeartDiseaseInput where
  age := 18
  gender := "Female"
  cholesterol := 100
  blood_pressure := 60
  heart_rate := 40
  smoking := "Never"
  alcohol_intake := "None"
  exercise_hours := 0
  family_history := false
  diabetes := false
  obesity := false
  stress_level := 1
  blood_sugar := 70
  exercise_induced_angina := false
  chest_pain_type := "Asymptomatic"

/-- C3 witness: the all-lower-boundary schema is accepted unchanged. -/
theorem form_accepts_boundary_values_witness :
    handleSubmit boundaryLowInput = .ok boundaryLowInput :=
  form_accepts_boundary_values boundaryLowInput
    ⟨Or.inl rfl, Or.inl rfl, Or.inl rfl, Or.inl rfl, Or.inl rfl, Or.inl rfl, Or.inl rfl⟩

/-- C4 counterexample: a schema with `gender = "Other"` (outside the fixed
enumeration) and all continuous fields in range is NOT rejected by the form
submit handler — `handleSubmit` returns `.ok` and `onSubmit` is invoked, so
the claim that such a submission fails with a validation error is false of
the code. -/
theorem form_accepts_invalid_categorical_cex :
    ({ sampleInput with gender := "Other" } : HeartDiseaseInput).gender ∉ genderValues ∧
    handleSubmit { sampleInput with gender := "Other" } =
      .ok { sampleInput with gender := "Other" } := by
  constructor
  · decide
  · rfl

/-- C4 amended: the form's `handleSubmit` validates only the seven continuous
ranges; a categorical field outside its fixed enumeration is not checked, so
whenever the continuous fields are in range the submission succeeds and
`onSubmit` receives the data unchanged — enumeration enforcement is left to
the Select options of the UI and to the backend. -/
theorem form_ignores_categorical_domains (d : HeartDiseaseInput)
    (hcat : d.gender ∉ genderValues ∨ d.smoking ∉ smokingValues ∨
      d.alcohol_intake ∉ alcoholIntakeValues ∨ d.chest_pain_type ∉ chestPainTypeValues)
    (h : continuousInRange d) : handleSubmit d = .ok d :=
  handleSubmit_ok_of_inRange d h

/-- C4 witness: a schema with `smoking = "Sometimes"` (outside the fixed
enumeration) but in-range continuous fields is accepted unchanged. -/
theorem form_ignores_categorical_domains_witness :
    handleSubmit { sampleInput with smoking := "Sometimes" } =
      .ok { sampleInput with smoking := "Sometimes" } :=
  form_ignores_categorical_domains { sampleInput with smoking := "Sometimes" }
    (Or.inr (Or.inl (by decide))) (by decide)

/-- C5: when the `apiClient.predict` promise rejects, `handleFormSubmit`
leaves the stored prediction untouched (no partial result is ever shown),
records only the error message, returns the UI to the manual-form state, and
leaves the extracted data untouched; the single consumed outcome models the
one `predict` call — there is no automatic retry. -/
theorem failed_predict_leaves_prediction_unchanged (m : AppModel) (e : String) :
    (handleFormSubmit m (.error e)).prediction = m.prediction ∧
    (handleFormSubmit m (.error e)).error = some e ∧
    (handleFormSubmit m (.error e)).currentState = AppState.manual ∧
    (handleFormSubmit m (.error e)).extractedData = m.extractedData :=
  ⟨rfl, rfl, rfl, rfl⟩

/-- C6: the upload path never produces a prediction — `onDropResponse` leaves
the prediction cell unchanged in every case; a successful response carrying
extracted data moves the app to the manual form with that data as initial
values and a cleared error, and a response without success or without
extracted data surfaces only the error message, propagating no data. -/
theorem upload_never_predicts_directly (m : AppModel) (r : UploadResponse) :
    (onDropResponse m r).prediction = m.prediction ∧
    (∀ data, r.success = true → r.extracted_data = some data →
      onDropResponse m r =
        { m with extractedData := some data, currentState := AppState.manual,
                 error := none }) ∧
    ((r.success = false ∨ r.extracted_data = none) →
      onDropResponse m r = { m with error := some r.message }) := by
  obtain ⟨success, message, extracted, conf⟩ := r
  refine ⟨?_, ?_, ?_⟩
  · cases success <;> cases extracted <;> rfl
  · intro data hs hd
    simp only at hs hd
    subst hs
    subst hd
    rfl
  · rintro (h | h)
    · simp only at h
      subst h
      cases extracted <;> rfl
    · simp only at h
      subst h
      cases success <;> rfl

/-- C6 witness: at a concrete state, a successful response with data moves to
the manual form without touching the prediction, and a failed response only
records the message. -/
theorem upload_never_predicts_directly_witness :
    (onDropResponse ⟨AppState.upload, none, none, none⟩
        ⟨true, "ok", some sampleInput, some (9 / 10)⟩ =
      ⟨AppState.manual, none, none, some sampleInput⟩) ∧
    (onDropResponse ⟨AppState.upload, none, none, none⟩
        ⟨false, "Extraction failed", none, none⟩ =
      ⟨AppState.upload, none, some "Extraction failed", none⟩) :=
  ⟨(upload_never_predicts_directly ⟨AppState.upload, none, none, none⟩
      ⟨true, "ok", some sampleInput, some (9 / 10)⟩).2.1 sampleInput rfl rfl,
   (upload_never_predicts_directly ⟨AppState.upload, none, none, none⟩
      ⟨false, "Extraction failed", none, none⟩).2.2 (Or.inl rfl)⟩

/-- C7: every request issued through the `apiClient` methods carries the
30000 ms deadline of the shared axios instance — no per-request config
overrides it. -/
theorem api_requests_carry_timeout (m : ApiMethod) : effectiveTimeout m = 30000 := by
  cases m <;> rfl

/-- C8: `getRiskDescription` always returns one of the four fixed catalog
strings and never an empty one; `low`, `moderate` and `high` (compared on the
lowercased input) each map to their fixed description and every other value
maps to the fixed default `Risk assessment completed.`. -/
theorem risk_description_static_catalog (level : String) :
    getRiskDescription level ∈ riskDescriptionCatalog ∧
    getRiskDescription level ≠ "" ∧
    (jsToLowerCase level = "low" → getRiskDescription level =
      "Your risk of heart disease is relatively low. Continue maintaining a healthy lifestyle.") ∧
    (jsToLowerCase level = "moderate" → getRiskDescription level =
      "Your risk of heart disease is moderate. Consider lifestyle changes and regular health checkups.") ∧
    (jsToLowerCase level = "high" → getRiskDescription level =
      "Your risk of heart disease is high. Please consult a healthcare professional immediately.") ∧
    (jsToLowerCase level ≠ "low" → jsToLowerCase level ≠ "moderate" →
      jsToLowerCase level ≠ "high" →
      getRiskDescription level = "Risk assessment completed.") := by
  unfold getRiskDescription
  split_ifs with h1 h2 h3 <;>
    exact ⟨by simp [riskDescriptionCatalog], by simp, by simp_all, by simp_all, by simp_all,
      by simp_all⟩

/-- C8 witness: `LOW` (case-insensitive) yields the low-tier description and
an unknown tier yields the fixed default. -/
theorem risk_description_static_catalog_witness :
    getRiskDescription "LOW" =
      "Your risk of heart disease is relatively low. Continue maintaining a healthy lifestyle." ∧
    getRiskDescription "unknown" = "Risk assessment completed." :=
  ⟨(risk_description_static_catalog "LOW").2.2.1 (by decide),
   (risk_description_static_catalog "unknown").2.2.2.2.2 (by decide) (by decide) (by decide)⟩

/-- C9: fields of `initialData` holding a JavaScript-falsy but domain-valid
value are replaced by the hardcoded defaults of `ManualForm`: an extracted
`exercise_hours = 0` becomes `3`, and each extracted `false` boolean merely
reproduces its default `false` — in each case the initializer is equal to the
one for a missing field, so the `||` fallback cannot distinguish a present
falsy value from an absent one and the extracted value is discarded. -/
theorem falsy_extracted_values_discarded (p : PartialHeartDiseaseInput) :
    (p.exercise_hours = some 0 →
      (initFormData (some p)).exercise_hours = 3 ∧
      initFormData (some p) = initFormData (some { p with exercise_hours := none })) ∧
    (p.family_history = some false →
      (initFormData (some p)).family_history = false ∧
      initFormData (some p) = initFormData (some { p with family_history := none })) ∧
    (p.diabetes = some false →
      (initFormData (some p)).diabetes = false ∧
      initFormData (some p) = initFormData (some { p with diabetes := none })) ∧
    (p.obesity = some false →
      (initFormData (some p)).obesity = false ∧
      initFormData (some p) = initFormData (some { p with obesity := none })) ∧
    (p.exercise_induced_angina = some false →
      (initFormData (some p)).exercise_induced_angina = false ∧
      initFormData (some p) =
        initFormData (some { p with exercise_induced_angina := none })) := by
  refine ⟨?_, ?_, ?_, ?_, ?_⟩ <;> intro h <;>
    exact ⟨by simp [initFormData, jsOrNum, jsOrBool, h],
      by simp [initFormData, jsOrNum, jsOrStr, jsOrBool, h]⟩

/-- The extraction result used as the C9 witness: falsy but domain-valid
values for the five affected fields. -/
def falsyExtraction : PartialHeartDiseaseInput :=
  { exercise_hours := some 0, family_history := some false, diabetes := some false,
    obesity := some false, exercise_induced_angina := some false }

/-- C9 witness: an extracted `exercise_hours = 0` initializes the form with
the default `3`, and the extracted `false` of `family_history` with the
default `false`. -/
theorem falsy_extracted_values_discarded_witness :
    (initFormData (some falsyExtraction)).exercise_hours = 3 ∧
    (initFormData (some falsyExtraction)).family_history = false :=
  ⟨((falsy_extracted_values_discarded falsyExtraction).1 rfl).1,
   ((falsy_extracted_values_discarded falsyExtraction).2.1 rfl).1⟩

/-- C10: `getRiskColor` and `getRiskIcon` are total and case-insensitive —
they agree with themselves on the lowercased input, every input whose
lowercase form is outside `{low, moderate, high}` yields the fixed defaults
`text-gray-600 bg-gray-50` and `❓`, and no input yields an empty result. -/
theorem risk_color_icon_total_case_insensitive (s : String) :
    getRiskColor s = getRiskColor (jsToLowerCase s) ∧
    getRiskIcon s = getRiskIcon (jsToLowerCase s) ∧
    (jsToLowerCase s ∉ (["low", "moderate", "high"] : List String) →
      getRiskColor s = "text-gray-600 bg-gray-50" ∧ getRiskIcon s = "❓") ∧
    getRiskColor s ≠ "" ∧ getRiskIcon s ≠ "" := by
  have hid := jsToLowerCase_idem s
  refine ⟨?_, ?_, ?_, ?_, ?_⟩
  · unfold getRiskColor
    rw [hid]
  · unfold getRiskIcon
    rw [hid]
  · intro h
    simp only [List.mem_cons, List.not_mem_nil, or_false, not_or] at h
    obtain ⟨h1, h2, h3⟩ := h
    constructor
    · unfold getRiskColor
      rw [if_neg h1, if_neg h2, if_neg h3]
    · unfold getRiskIcon
      rw [if_neg h1, if_neg h2, if_neg h3]
  · unfold getRiskColor
    split_ifs <;> decide
  · unfold getRiskIcon
    split_ifs <;> decide

/-- C10 witness: `HIGH` agrees with its lowercase form and an out-of-catalog
string yields both defaults. -/
theorem risk_color_icon_total_case_insensitive_witness :
    getRiskColor "HIGH" = getRiskColor (jsToLowerCase "HIGH") ∧
    getRiskColor "???" = "text-gray-600 bg-gray-50" ∧ getRiskIcon "???" = "❓" :=
  ⟨(risk_color_icon_total_case_insensitive "HIGH").1,
   ((risk_color_icon_total_case_insensitive "???").2.2.1 (by decide)).1,
   ((risk_color_icon_total_case_insensitive "???").2.2.1 (by decide)).2⟩

/-- C1: for every valid Feature Schema the spec-modelled `predict` succeeds
with a probability in `[0,1]`, and — with `K = 15`, the full feature count —
the `top_contributors` importances produced by the §4.4 normalization (absolute
values, exactly-zero contributions discarded, survivors scaled to sum to 100)
are all non-negative and sum to 100 within the `1e-2` tolerance (here exactly,
as the arithmetic is rational). -/
theorem predict_valid_probability_and_importances (d : HeartDiseaseInput)
    (h : validSchema d) :
    ∃ pr : HeartDiseasePrediction, predict 15 d = .ok pr ∧
      0 ≤ pr.risk_score ∧ pr.risk_score ≤ 1 ∧
      (∀ c ∈ pr.top_contributors, 0 ≤ c.importance) ∧
      |(pr.top_contributors.map FeatureContribution.importance).sum - 100| ≤ 1 / 100 := by
  have hlen : (featureContribs d).length = 15 := rfl
  have hne : featureContribs d ≠ [] := by
    intro hc
    rw [hc] at hlen
    exact absurd hlen (by norm_num)
  have htake : (normalizeContribs (featureContribs d)).take 15 =
      normalizeContribs (featureContribs d) :=
    List.take_of_length_le ((normalizeContribs_length_le _).trans hlen.le)
  have key : predict 15 d = .ok ⟨riskModel (transform d),
      categorize (riskModel (transform d)), normalizeContribs (featureContribs d),
      modelVersion, guidanceNotes (categorize (riskModel (transform d)))⟩ := by
    unfold predict
    rw [if_pos h, htake]
  refine ⟨_, key, (riskModel_mem_unitInterval (transform d)).1,
    (riskModel_mem_unitInterval (transform d)).2, ?_, ?_⟩
  · intro c hc
    exact normalizeContribs_importance_nonneg (featureContribs d) c hc
  · show |((normalizeContribs (featureContribs d)).map
        FeatureContribution.importance).sum - 100| ≤ 1 / 100
    rw [normalizeContribs_sum (featureContribs d) hne]
    norm_num

/-- C1 witness: the §8 scenario input is valid and `predict 15` on it yields
a probability in `[0,1]` with non-negative importances summing to 100. -/
theorem predict_valid_probability_and_importances_witness :
    ∃ pr : HeartDiseasePrediction, predict 15 sampleInput = .ok pr ∧
      0 ≤ pr.risk_score ∧ pr.risk_score ≤ 1 ∧
      (∀ c ∈ pr.top_contributors, 0 ≤ c.importance) ∧
      |(pr.top_contributors.map FeatureContribution.importance).sum - 100| ≤ 1 / 100 :=
  predict_valid_probability_and_importances sampleInput (by decide)

end HeartHealth
